import Mathlib

/-!
Verification of the IS31FL3731 LED-matrix driver crate.

The repository holds two variants of the driver:
a full variant in src/lib.rs (reset with delay and picture mode,
audio_sync, clear) and a minimal variant in src/is31fl3731.rs
(reset performs only the shutdown write).

Embedding: the I2C bus is modelled as an oracle
i2c : Nat -> Option e giving the outcome of the n-th bus write
(none = acknowledged, some err = transport failure).  Every
operation threads a BusState holding the number of writes issued
so far and the trace of observable events (addressed writes and
delays).  Driver structures mirror the Rust structs field by field;
operations are translated statement by statement from the source.
-/

set_option maxHeartbeats 1000000

namespace IS31

/-- The strap-selected 7-bit device address, from the Rust enum Address. -/
inductive Address where
  | GND
  | VCC
  | SCL
  | SDA
deriving DecidableEq, Repr

/-- Numeric value of each Address variant, as in the Rust source. -/
def Address.toNat : Address → Nat
  | .GND => 0b1110100
  | .VCC => 0b1110111
  | .SCL => 0b1110101
  | .SDA => 0b1110110

/-- Observable bus events: an addressed write of a byte list, or a
millisecond delay. -/
inductive Event where
  | write (addr : Nat) (bytes : List Nat)
  | delayMs (ms : Nat)
deriving DecidableEq, Repr

/-- Whether an event is a bus write (as opposed to a delay). -/
def Event.isBusWrite : Event → Bool
  | .write _ _ => true
  | .delayMs _ => false

/-- The bus-write subsequence of a trace. -/
def writesOf (t : List Event) : List Event :=
  t.filter Event.isBusWrite

/-- State of the bus transport: how many writes have been issued so
far (used to index the outcome oracle) and the event trace. -/
structure BusState where
  calls : Nat
  trace : List Event
deriving DecidableEq, Repr

/-- The bus state before any traffic. -/
def BusState.init : BusState := ⟨0, []⟩

/- Register map constants from src/lib.rs and src/is31fl3731.rs. -/

def MATRIX_WIDTH : Nat := 16
def MATRIX_HEIGHT : Nat := 9
def ISSI_COMMAND_REGISTER : Nat := 0xFD
def ISSI_BANK_FUNCTION_REGISTER : Nat := 0x0B
def ISSI_REG_SHUTDOWN : Nat := 0x0A
def ISSI_REG_CONFIG : Nat := 0x00
def ISSI_REG_CONFIG_PICTURE_MODE : Nat := 0x00
def ISSI_REG_AUDIOSYNC : Nat := 0x06

/-- One call of the transport primitive self.i2c.write(addr, bytes):
the outcome of the n-th write is given by the oracle, the write is
recorded in the trace either way, and the call counter advances. -/
def i2cWrite {ε : Type} (i2c : Nat → Option ε) (addr : Nat)
    (bytes : List Nat) (s : BusState) : Except ε Unit × BusState :=
  match i2c s.calls with
  | none => (Except.ok (), ⟨s.calls + 1, s.trace ++ [Event.write addr bytes]⟩)
  | some e => (Except.error e, ⟨s.calls + 1, s.trace ++ [Event.write addr bytes]⟩)

/-- The delay primitive self.delay.delay_ms(ms): records a delay
event, issues no bus traffic. -/
def delayMsCall (ms : Nat) (s : BusState) : BusState :=
  ⟨s.calls, s.trace ++ [Event.delayMs ms]⟩

/-- The full driver variant from src/lib.rs: struct IS31FL3731
holding the i2c handle, the delay primitive, the frame field, and
the device address. -/
structure IS31FL3731 (ε δ : Type) where
  i2c : Nat → Option ε
  delay : δ
  frame : Nat
  address : Address

namespace IS31FL3731

variable {ε δ : Type}

/-- IS31FL3731::new from src/lib.rs: stores the handles and the
address, sets frame to 0.  The second component is the bus traffic
issued during construction (none). -/
def new (i2c : Nat → Option ε) (delay : δ) (address : Address) :
    IS31FL3731 ε δ × List Event :=
  ({ i2c := i2c, delay := delay, frame := 0, address := address }, [])

/-- IS31FL3731::select_bank from src/lib.rs. -/
def select_bank (d : IS31FL3731 ε δ) (bank : Nat) (s : BusState) :
    Except ε Unit × IS31FL3731 ε δ × BusState :=
  match i2cWrite d.i2c d.address.toNat [ISSI_COMMAND_REGISTER, bank] s with
  | (Except.error e, s') => (Except.error e, d, s')
  | (Except.ok _, s') => (Except.ok (), d, s')

/-- IS31FL3731::write_register from src/lib.rs: select the bank,
then write the register byte pair; the second write is not attempted
when the bank select fails. -/
def write_register (d : IS31FL3731 ε δ) (bank reg data : Nat)
    (s : BusState) : Except ε Unit × IS31FL3731 ε δ × BusState :=
  match d.select_bank bank s with
  | (Except.error e, d', s') => (Except.error e, d', s')
  | (Except.ok _, d', s') =>
    match i2cWrite d'.i2c d'.address.toNat [reg, data] s' with
    | (Except.error e, s2) => (Except.error e, d', s2)
    | (Except.ok _, s2) => (Except.ok (), d', s2)

/-- IS31FL3731::reset from src/lib.rs: shutdown write, 10 ms delay,
out-of-shutdown write, picture-mode write; each failure aborts. -/
def reset (d : IS31FL3731 ε δ) (s : BusState) :
    Except ε Unit × IS31FL3731 ε δ × BusState :=
  match d.write_register ISSI_BANK_FUNCTION_REGISTER ISSI_REG_SHUTDOWN 0x00 s with
  | (Except.error e, d1, s1) => (Except.error e, d1, s1)
  | (Except.ok _, d1, s1) =>
    let s1 := delayMsCall 10 s1
    match d1.write_register ISSI_BANK_FUNCTION_REGISTER ISSI_REG_SHUTDOWN 0x01 s1 with
    | (Except.error e, d2, s2) => (Except.error e, d2, s2)
    | (Except.ok _, d2, s2) =>
      match d2.write_register ISSI_BANK_FUNCTION_REGISTER ISSI_REG_CONFIG
          ISSI_REG_CONFIG_PICTURE_MODE s2 with
      | (Except.error e, d3, s3) => (Except.error e, d3, s3)
      | (Except.ok _, d3, s3) => (Except.ok (), d3, s3)

/-- IS31FL3731::audio_sync from src/lib.rs. -/
def audio_sync (d : IS31FL3731 ε δ) (enable : Bool) (s : BusState) :
    Except ε Unit × IS31FL3731 ε δ × BusState :=
  let data := if enable then 1 else 0
  match d.write_register ISSI_BANK_FUNCTION_REGISTER ISSI_REG_AUDIOSYNC data s with
  | (Except.error e, d1, s1) => (Except.error e, d1, s1)
  | (Except.ok _, d1, s1) => (Except.ok (), d1, s1)

/-- The loop body of IS31FL3731::clear: for each page index x the
erase buffer has first byte 0x24 + x*24 and 24 zero bytes; the loop
aborts on the first failed write. -/
def clearPages (d : IS31FL3731 ε δ) : List Nat → BusState →
    Except ε Unit × BusState
  | [], s => (Except.ok (), s)
  | x :: xs, s =>
    match i2cWrite d.i2c d.address.toNat
        ((0x24 + x * 24) :: List.replicate 24 0) s with
    | (Except.error e, s') => (Except.error e, s')
    | (Except.ok _, s') => d.clearPages xs s'

/-- IS31FL3731::clear from src/lib.rs: select the frame bank, then
write the six 25-byte erase buffers for x in 0..6. -/
def clear (d : IS31FL3731 ε δ) (frame : Nat) (s : BusState) :
    Except ε Unit × IS31FL3731 ε δ × BusState :=
  match d.select_bank frame s with
  | (Except.error e, d1, s1) => (Except.error e, d1, s1)
  | (Except.ok _, d1, s1) =>
    match d1.clearPages [0, 1, 2, 3, 4, 5] s1 with
    | (Except.error e, s2) => (Except.error e, d1, s2)
    | (Except.ok _, s2) => (Except.ok (), d1, s2)

end IS31FL3731

/-- The minimal driver variant from src/is31fl3731.rs: no delay
primitive, reset performs only the shutdown write. -/
structure Minimal (ε : Type) where
  i2c : Nat → Option ε
  frame : Nat
  address : Address

namespace Minimal

variable {ε : Type}

/-- IS31FL3731::new from src/is31fl3731.rs. -/
def new (i2c : Nat → Option ε) (address : Address) :
    Minimal ε × List Event :=
  ({ i2c := i2c, frame := 0, address := address }, [])

/-- IS31FL3731::select_bank from src/is31fl3731.rs. -/
def select_bank (d : Minimal ε) (bank : Nat) (s : BusState) :
    Except ε Unit × Minimal ε × BusState :=
  match i2cWrite d.i2c d.address.toNat [ISSI_COMMAND_REGISTER, bank] s with
  | (Except.error e, s') => (Except.error e, d, s')
  | (Except.ok _, s') => (Except.ok (), d, s')

/-- IS31FL3731::write_register from src/is31fl3731.rs. -/
def write_register (d : Minimal ε) (bank reg data : Nat)
    (s : BusState) : Except ε Unit × Minimal ε × BusState :=
  match d.select_bank bank s with
  | (Except.error e, d', s') => (Except.error e, d', s')
  | (Except.ok _, d', s') =>
    match i2cWrite d'.i2c d'.address.toNat [reg, data] s' with
    | (Except.error e, s2) => (Except.error e, d', s2)
    | (Except.ok _, s2) => (Except.ok (), d', s2)

/-- IS31FL3731::reset from src/is31fl3731.rs: only the shutdown
write, no delay, no un-shutdown, no mode configuration. -/
def reset (d : Minimal ε) (s : BusState) :
    Except ε Unit × Minimal ε × BusState :=
  match d.write_register ISSI_BANK_FUNCTION_REGISTER ISSI_REG_SHUTDOWN 0x00 s with
  | (Except.error e, d1, s1) => (Except.error e, d1, s1)
  | (Except.ok _, d1, s1) => (Except.ok (), d1, s1)

end Minimal

/- Expected event sequences, written out from the spec for use in
the claim statements. -/

/-- The full-variant reset trace as the spec lists it. -/
def resetEvents (a : Nat) : List Event :=
  [Event.write a [0xFD, 0x0B], Event.write a [0x0A, 0x00],
   Event.delayMs 10,
   Event.write a [0xFD, 0x0B], Event.write a [0x0A, 0x01],
   Event.write a [0xFD, 0x0B], Event.write a [0x00, 0x00]]

/-- The audio_sync trace as the spec lists it. -/
def audioSyncEvents (a : Nat) (enable : Bool) : List Event :=
  [Event.write a [0xFD, 0x0B],
   Event.write a [0x06, if enable then 1 else 0]]

/-- The clear trace as the spec lists it: the bank select, then six
25-byte page writes with first bytes 36, 60, 84, 108, 132, 156. -/
def clearEvents (a f : Nat) : List Event :=
  Event.write a [0xFD, f] ::
    ([36, 60, 84, 108, 132, 156].map
      (fun b => Event.write a (b :: List.replicate 24 0)))

/-- The write_register trace as the spec lists it. -/
def writeRegisterEvents (a bank reg data : Nat) : List Event :=
  [Event.write a [0xFD, bank], Event.write a [reg, data]]

/-- The minimal-variant reset trace as the spec lists it. -/
def minimalResetEvents (a : Nat) : List Event :=
  [Event.write a [0xFD, 0x0B], Event.write a [0x0A, 0x00]]

section BasicLemmas

variable {ε δ : Type}

/-- An acknowledged bus write advances the counter and appends the
write to the trace. -/
lemma i2cWrite_ok {i2c : Nat → Option ε} {a : Nat} {b : List Nat}
    {s : BusState} (h : i2c s.calls = none) :
    i2cWrite i2c a b s =
      (Except.ok (), ⟨s.calls + 1, s.trace ++ [Event.write a b]⟩) := by
  simp [i2cWrite, h]

/-- A failed bus write returns the transport error; the attempted
write is still recorded. -/
lemma i2cWrite_fail {i2c : Nat → Option ε} {a : Nat} {b : List Nat}
    {s : BusState} {e : ε} (h : i2c s.calls = some e) :
    i2cWrite i2c a b s =
      (Except.error e, ⟨s.calls + 1, s.trace ++ [Event.write a b]⟩) := by
  simp [i2cWrite, h]

/-- select_bank never modifies the driver struct. -/
lemma select_bank_drv (d : IS31FL3731 ε δ) (bank : Nat) (s : BusState) :
    (d.select_bank bank s).2.1 = d := by
  cases h : d.i2c s.calls <;>
    simp [IS31FL3731.select_bank, i2cWrite, h]

/-- write_register never modifies the driver struct. -/
lemma write_register_drv (d : IS31FL3731 ε δ) (bank reg data : Nat)
    (s : BusState) : (d.write_register bank reg data s).2.1 = d := by
  rcases hsb : d.select_bank bank s with ⟨r, d', s'⟩
  have hd : d' = d := by
    have h := select_bank_drv d bank s
    rw [hsb] at h
    exact h
  rw [hd] at hsb
  rcases r with e | u
  · simp [IS31FL3731.write_register, hsb]
  · cases h2 : d.i2c s'.calls <;>
      simp [IS31FL3731.write_register, hsb, i2cWrite, h2]

/-- reset never modifies the driver struct. -/
lemma reset_drv (d : IS31FL3731 ε δ) (s : BusState) :
    (d.reset s).2.1 = d := by
  rcases h1 : d.write_register ISSI_BANK_FUNCTION_REGISTER ISSI_REG_SHUTDOWN 0x00 s
    with ⟨r1, d1, s1⟩
  have hd1 : d1 = d := by
    have h := write_register_drv d ISSI_BANK_FUNCTION_REGISTER ISSI_REG_SHUTDOWN 0x00 s
    rw [h1] at h
    exact h
  rw [hd1] at h1
  rcases r1 with e | u
  · simp [IS31FL3731.reset, h1]
  · rcases h2 : d.write_register ISSI_BANK_FUNCTION_REGISTER ISSI_REG_SHUTDOWN 0x01
        (delayMsCall 10 s1) with ⟨r2, d2, s2⟩
    have hd2 : d2 = d := by
      have h := write_register_drv d ISSI_BANK_FUNCTION_REGISTER ISSI_REG_SHUTDOWN 0x01
        (delayMsCall 10 s1)
      rw [h2] at h
      exact h
    rw [hd2] at h2
    rcases r2 with e | u
    · simp [IS31FL3731.reset, h1, h2]
    · rcases h3 : d.write_register ISSI_BANK_FUNCTION_REGISTER ISSI_REG_CONFIG
          ISSI_REG_CONFIG_PICTURE_MODE s2 with ⟨r3, d3, s3⟩
      have hd3 : d3 = d := by
        have h := write_register_drv d ISSI_BANK_FUNCTION_REGISTER ISSI_REG_CONFIG
          ISSI_REG_CONFIG_PICTURE_MODE s2
        rw [h3] at h
        exact h
      rw [hd3] at h3
      rcases r3 with e | u <;> simp [IS31FL3731.reset, h1, h2, h3]

/-- audio_sync never modifies the driver struct. -/
lemma audio_sync_drv (d : IS31FL3731 ε δ) (enable : Bool) (s : BusState) :
    (d.audio_sync enable s).2.1 = d := by
  rcases h1 : d.write_register ISSI_BANK_FUNCTION_REGISTER ISSI_REG_AUDIOSYNC
      (if enable then 1 else 0) s with ⟨r1, d1, s1⟩
  have hd1 : d1 = d := by
    have h := write_register_drv d ISSI_BANK_FUNCTION_REGISTER ISSI_REG_AUDIOSYNC
      (if enable then 1 else 0) s
    rw [h1] at h
    exact h
  rw [hd1] at h1
  rcases r1 with e | u <;> simp [IS31FL3731.audio_sync, h1]

/-- clear never modifies the driver struct. -/
lemma clear_drv (d : IS31FL3731 ε δ) (f : Nat) (s : BusState) :
    (d.clear f s).2.1 = d := by
  rcases hsb : d.select_bank f s with ⟨r, d', s'⟩
  have hd : d' = d := by
    have h := select_bank_drv d f s
    rw [hsb] at h
    exact h
  rw [hd] at hsb
  rcases r with e | u
  · simp [IS31FL3731.clear, hsb]
  · rcases hcp : d.clearPages [0, 1, 2, 3, 4, 5] s' with ⟨r2, s2⟩
    rcases r2 with e | u <;> simp [IS31FL3731.clear, hsb, hcp]

/-- The minimal-variant select_bank never modifies the driver. -/
lemma minimal_select_bank_drv (d : Minimal ε) (bank : Nat) (s : BusState) :
    (d.select_bank bank s).2.1 = d := by
  cases h : d.i2c s.calls <;>
    simp [Minimal.select_bank, i2cWrite, h]

/-- The minimal-variant write_register never modifies the driver. -/
lemma minimal_write_register_drv (d : Minimal ε) (bank reg data : Nat)
    (s : BusState) : (d.write_register bank reg data s).2.1 = d := by
  rcases hsb : d.select_bank bank s with ⟨r, d', s'⟩
  have hd : d' = d := by
    have h := minimal_select_bank_drv d bank s
    rw [hsb] at h
    exact h
  rw [hd] at hsb
  rcases r with e | u
  · simp [Minimal.write_register, hsb]
  · cases h2 : d.i2c s'.calls <;>
      simp [Minimal.write_register, hsb, i2cWrite, h2]

/-- The minimal-variant reset never modifies the driver. -/
lemma minimal_reset_drv (d : Minimal ε) (s : BusState) :
    (d.reset s).2.1 = d := by
  rcases h1 : d.write_register ISSI_BANK_FUNCTION_REGISTER ISSI_REG_SHUTDOWN 0x00 s
    with ⟨r1, d1, s1⟩
  have hd1 : d1 = d := by
    have h := minimal_write_register_drv d ISSI_BANK_FUNCTION_REGISTER ISSI_REG_SHUTDOWN 0x00 s
    rw [h1] at h
    exact h
  rw [hd1] at h1
  rcases r1 with e | u <;> simp [Minimal.reset, h1]

end BasicLemmas

/-- C4: for the minimal variant, a successful reset() issues exactly
two bus writes, [0xFD,0x0B] then [0x0A,0x00], and nothing else: no
delay, no un-shutdown write, no mode-configuration write. -/
theorem minimal_reset_trace_correct {ε : Type} (i2c : Nat → Option ε)
    (fr : Nat) (a : Address)
    (h : ((Minimal.mk i2c fr a).reset BusState.init).1 = Except.ok ()) :
    ((Minimal.mk i2c fr a).reset BusState.init).2.2.trace =
      minimalResetEvents a.toNat := by
  have h0 : i2c 0 = none := by
    cases hc : i2c 0 with
    | none => rfl
    | some e =>
      simp [Minimal.reset, Minimal.write_register, Minimal.select_bank,
        i2cWrite, BusState.init, hc] at h
  have h1 : i2c 1 = none := by
    cases hc : i2c 1 with
    | none => rfl
    | some e =>
      simp [Minimal.reset, Minimal.write_register, Minimal.select_bank,
        i2cWrite, BusState.init, h0, hc] at h
  simp [Minimal.reset, Minimal.write_register, Minimal.select_bank,
    i2cWrite, BusState.init, h0, h1, minimalResetEvents,
    ISSI_COMMAND_REGISTER, ISSI_BANK_FUNCTION_REGISTER, ISSI_REG_SHUTDOWN]

/-- Witness for C4 at a concrete always-acknowledging bus. -/
theorem minimal_reset_trace_correct_witness :
    ((Minimal.mk (fun _ => (none : Option Nat)) 0 Address.GND).reset
        BusState.init).1 = Except.ok () ∧
    ((Minimal.mk (fun _ => (none : Option Nat)) 0 Address.GND).reset
        BusState.init).2.2.trace = minimalResetEvents Address.GND.toNat :=
  ⟨rfl, minimal_reset_trace_correct _ 0 Address.GND rfl⟩

/-- C1: for the full variant, a successful reset() issues exactly, in
order: [0xFD,0x0B], [0x0A,0x00], then the 10 ms delay (meeting the
10 ms minimum), then [0xFD,0x0B], [0x0A,0x01], [0xFD,0x0B],
[0x00,0x00], to the stored device address, and nothing else. -/
theorem reset_full_trace_correct {ε δ : Type} (i2c : Nat → Option ε)
    (del : δ) (fr : Nat) (a : Address)
    (h : ((IS31FL3731.mk i2c del fr a).reset BusState.init).1 = Except.ok ()) :
    ((IS31FL3731.mk i2c del fr a).reset BusState.init).2.2.trace =
      resetEvents a.toNat := by
  have h0 : i2c 0 = none := by
    cases hc : i2c 0 with
    | none => rfl
    | some e =>
      simp [IS31FL3731.reset, IS31FL3731.write_register, IS31FL3731.select_bank,
        i2cWrite, delayMsCall, BusState.init, hc] at h
  have h1 : i2c 1 = none := by
    cases hc : i2c 1 with
    | none => rfl
    | some e =>
      simp [IS31FL3731.reset, IS31FL3731.write_register, IS31FL3731.select_bank,
        i2cWrite, delayMsCall, BusState.init, h0, hc] at h
  have h2 : i2c 2 = none := by
    cases hc : i2c 2 with
    | none => rfl
    | some e =>
      simp [IS31FL3731.reset, IS31FL3731.write_register, IS31FL3731.select_bank,
        i2cWrite, delayMsCall, BusState.init, h0, h1, hc] at h
  have h3 : i2c 3 = none := by
    cases hc : i2c 3 with
    | none => rfl
    | some e =>
      simp [IS31FL3731.reset, IS31FL3731.write_register, IS31FL3731.select_bank,
        i2cWrite, delayMsCall, BusState.init, h0, h1, h2, hc] at h
  have h4 : i2c 4 = none := by
    cases hc : i2c 4 with
    | none => rfl
    | some e =>
      simp [IS31FL3731.reset, IS31FL3731.write_register, IS31FL3731.select_bank,
        i2cWrite, delayMsCall, BusState.init, h0, h1, h2, h3, hc] at h
  have h5 : i2c 5 = none := by
    cases hc : i2c 5 with
    | none => rfl
    | some e =>
      simp [IS31FL3731.reset, IS31FL3731.write_register, IS31FL3731.select_bank,
        i2cWrite, delayMsCall, BusState.init, h0, h1, h2, h3, h4, hc] at h
  simp [IS31FL3731.reset, IS31FL3731.write_register, IS31FL3731.select_bank,
    i2cWrite, delayMsCall, BusState.init, h0, h1, h2, h3, h4, h5,
    resetEvents, ISSI_COMMAND_REGISTER, ISSI_BANK_FUNCTION_REGISTER,
    ISSI_REG_SHUTDOWN, ISSI_REG_CONFIG, ISSI_REG_CONFIG_PICTURE_MODE]

/-- Witness for C1 at a concrete always-acknowledging bus. -/
theorem reset_full_trace_correct_witness :
    ((IS31FL3731.mk (fun _ => (none : Option Nat)) () 0 Address.GND).reset
        BusState.init).1 = Except.ok () ∧
    ((IS31FL3731.mk (fun _ => (none : Option Nat)) () 0 Address.GND).reset
        BusState.init).2.2.trace = resetEvents Address.GND.toNat :=
  ⟨rfl, reset_full_trace_correct _ () 0 Address.GND rfl⟩

/-- C5: a successful audio_sync(enable) issues exactly two bus
writes, [0xFD,0x0B] then [0x06, d] with d = 1 when enable is true
and d = 0 when enable is false, and leaves the driver struct
unchanged. -/
theorem audio_sync_trace_correct {ε δ : Type} (i2c : Nat → Option ε)
    (del : δ) (fr : Nat) (a : Address) (enable : Bool)
    (h : ((IS31FL3731.mk i2c del fr a).audio_sync enable BusState.init).1 =
      Except.ok ()) :
    ((IS31FL3731.mk i2c del fr a).audio_sync enable BusState.init).2.2.trace =
      audioSyncEvents a.toNat enable ∧
    ((IS31FL3731.mk i2c del fr a).audio_sync enable BusState.init).2.1 =
      IS31FL3731.mk i2c del fr a := by
  have h0 : i2c 0 = none := by
    cases hc : i2c 0 with
    | none => rfl
    | some e =>
      simp [IS31FL3731.audio_sync, IS31FL3731.write_register,
        IS31FL3731.select_bank, i2cWrite, BusState.init, hc] at h
  have h1 : i2c 1 = none := by
    cases hc : i2c 1 with
    | none => rfl
    | some e =>
      simp [IS31FL3731.audio_sync, IS31FL3731.write_register,
        IS31FL3731.select_bank, i2cWrite, BusState.init, h0, hc] at h
  constructor
  · simp [IS31FL3731.audio_sync, IS31FL3731.write_register,
      IS31FL3731.select_bank, i2cWrite, BusState.init, h0, h1,
      audioSyncEvents, ISSI_COMMAND_REGISTER, ISSI_BANK_FUNCTION_REGISTER,
      ISSI_REG_AUDIOSYNC]
  · exact audio_sync_drv (IS31FL3731.mk i2c del fr a) enable BusState.init

/-- Witness for C5 at a concrete always-acknowledging bus, with
enable set to true. -/
theorem audio_sync_trace_correct_witness :
    ((IS31FL3731.mk (fun _ => (none : Option Nat)) () 0 Address.GND).audio_sync
        true BusState.init).1 = Except.ok () ∧
    ((IS31FL3731.mk (fun _ => (none : Option Nat)) () 0 Address.GND).audio_sync
        true BusState.init).2.2.trace = audioSyncEvents Address.GND.toNat true ∧
    ((IS31FL3731.mk (fun _ => (none : Option Nat)) () 0 Address.GND).audio_sync
        true BusState.init).2.1 =
      IS31FL3731.mk (fun _ => (none : Option Nat)) () 0 Address.GND :=
  ⟨rfl, (audio_sync_trace_correct (fun _ => (none : Option Nat)) () 0
      Address.GND true rfl).1,
    (audio_sync_trace_correct (fun _ => (none : Option Nat)) () 0
      Address.GND true rfl).2⟩

/-- C6: in both variants, a successful
write_register(bank, reg, data) issues exactly two bus writes to the
stored device address: [0xFD, bank] followed by [reg, data]. -/
theorem write_register_trace_correct {ε δ : Type} (i2c : Nat → Option ε)
    (del : δ) (fr bank reg data : Nat) (a : Address) :
    (((IS31FL3731.mk i2c del fr a).write_register bank reg data
        BusState.init).1 = Except.ok () →
      ((IS31FL3731.mk i2c del fr a).write_register bank reg data
        BusState.init).2.2.trace = writeRegisterEvents a.toNat bank reg data) ∧
    (((Minimal.mk i2c fr a).write_register bank reg data
        BusState.init).1 = Except.ok () →
      ((Minimal.mk i2c fr a).write_register bank reg data
        BusState.init).2.2.trace = writeRegisterEvents a.toNat bank reg data) := by
  constructor
  · intro h
    have h0 : i2c 0 = none := by
      cases hc : i2c 0 with
      | none => rfl
      | some e =>
        simp [IS31FL3731.write_register, IS31FL3731.select_bank,
          i2cWrite, BusState.init, hc] at h
    have h1 : i2c 1 = none := by
      cases hc : i2c 1 with
      | none => rfl
      | some e =>
        simp [IS31FL3731.write_register, IS31FL3731.select_bank,
          i2cWrite, BusState.init, h0, hc] at h
    simp [IS31FL3731.write_register, IS31FL3731.select_bank, i2cWrite,
      BusState.init, h0, h1, writeRegisterEvents, ISSI_COMMAND_REGISTER]
  · intro h
    have h0 : i2c 0 = none := by
      cases hc : i2c 0 with
      | none => rfl
      | some e =>
        simp [Minimal.write_register, Minimal.select_bank,
          i2cWrite, BusState.init, hc] at h
    have h1 : i2c 1 = none := by
      cases hc : i2c 1 with
      | none => rfl
      | some e =>
        simp [Minimal.write_register, Minimal.select_bank,
          i2cWrite, BusState.init, h0, hc] at h
    simp [Minimal.write_register, Minimal.select_bank, i2cWrite,
      BusState.init, h0, h1, writeRegisterEvents, ISSI_COMMAND_REGISTER]

/-- Witness for C6 at a concrete always-acknowledging bus with
bank 3, register 5, data 9. -/
theorem write_register_trace_correct_witness :
    ((IS31FL3731.mk (fun _ => (none : Option Nat)) () 0 Address.GND).write_register
        3 5 9 BusState.init).2.2.trace =
      writeRegisterEvents Address.GND.toNat 3 5 9 ∧
    ((Minimal.mk (fun _ => (none : Option Nat)) 0 Address.GND).write_register
        3 5 9 BusState.init).2.2.trace =
      writeRegisterEvents Address.GND.toNat 3 5 9 :=
  ⟨(write_register_trace_correct (fun _ => (none : Option Nat)) () 0 3 5 9
      Address.GND).1 rfl,
    (write_register_trace_correct (fun _ => (none : Option Nat)) () 0 3 5 9
      Address.GND).2 rfl⟩

/-- C2: a successful clear(f) issues exactly seven bus writes to the
stored address: first [0xFD, f], then six 25-byte writes whose first
bytes are 36, 60, 84, 108, 132, 156 in increasing page order, each
followed by 24 zero bytes. -/
theorem clear_trace_correct {ε δ : Type} (i2c : Nat → Option ε)
    (del : δ) (fr f : Nat) (a : Address)
    (h : ((IS31FL3731.mk i2c del fr a).clear f BusState.init).1 = Except.ok ()) :
    ((IS31FL3731.mk i2c del fr a).clear f BusState.init).2.2.trace =
      clearEvents a.toNat f := by
  have h0 : i2c 0 = none := by
    cases hc : i2c 0 with
    | none => rfl
    | some e =>
      simp [IS31FL3731.clear, IS31FL3731.clearPages, IS31FL3731.select_bank,
        i2cWrite, BusState.init, hc] at h
  have h1 : i2c 1 = none := by
    cases hc : i2c 1 with
    | none => rfl
    | some e =>
      simp [IS31FL3731.clear, IS31FL3731.clearPages, IS31FL3731.select_bank,
        i2cWrite, BusState.init, h0, hc] at h
  have h2 : i2c 2 = none := by
    cases hc : i2c 2 with
    | none => rfl
    | some e =>
      simp [IS31FL3731.clear, IS31FL3731.clearPages, IS31FL3731.select_bank,
        i2cWrite, BusState.init, h0, h1, hc] at h
  have h3 : i2c 3 = none := by
    cases hc : i2c 3 with
    | none => rfl
    | some e =>
      simp [IS31FL3731.clear, IS31FL3731.clearPages, IS31FL3731.select_bank,
        i2cWrite, BusState.init, h0, h1, h2, hc] at h
  have h4 : i2c 4 = none := by
    cases hc : i2c 4 with
    | none => rfl
    | some e =>
      simp [IS31FL3731.clear, IS31FL3731.clearPages, IS31FL3731.select_bank,
        i2cWrite, BusState.init, h0, h1, h2, h3, hc] at h
  have h5 : i2c 5 = none := by
    cases hc : i2c 5 with
    | none => rfl
    | some e =>
      simp [IS31FL3731.clear, IS31FL3731.clearPages, IS31FL3731.select_bank,
        i2cWrite, BusState.init, h0, h1, h2, h3, h4, hc] at h
  have h6 : i2c 6 = none := by
    cases hc : i2c 6 with
    | none => rfl
    | some e =>
      simp [IS31FL3731.clear, IS31FL3731.clearPages, IS31FL3731.select_bank,
        i2cWrite, BusState.init, h0, h1, h2, h3, h4, h5, hc] at h
  simp [IS31FL3731.clear, IS31FL3731.clearPages, IS31FL3731.select_bank,
    i2cWrite, BusState.init, h0, h1, h2, h3, h4, h5, h6, clearEvents,
    ISSI_COMMAND_REGISTER]

/-- Witness for C2 at a concrete always-acknowledging bus with
frame 3. -/
theorem clear_trace_correct_witness :
    ((IS31FL3731.mk (fun _ => (none : Option Nat)) () 0 Address.GND).clear
        3 BusState.init).1 = Except.ok () ∧
    ((IS31FL3731.mk (fun _ => (none : Option Nat)) () 0 Address.GND).clear
        3 BusState.init).2.2.trace = clearEvents Address.GND.toNat 3 :=
  ⟨rfl, clear_trace_correct _ () 0 3 Address.GND rfl⟩

/-- C7: construction stores the caller-supplied bus handle, the
delay primitive (full variant), and the address, initializes the
frame field to 0, and issues no bus writes. -/
theorem new_initializes_without_bus_traffic {ε δ : Type}
    (i2c : Nat → Option ε) (del : δ) (a : Address) :
    IS31FL3731.new i2c del a =
      (⟨i2c, del, 0, a⟩, ([] : List Event)) ∧
    Minimal.new i2c a = (⟨i2c, 0, a⟩, ([] : List Event)) :=
  ⟨rfl, rfl⟩

/-- C8: for every operation and every argument, whether the call
returns success or an error, the driver struct after the call equals
the driver struct before it; in particular the frame field is never
updated by any operation and the address is immutable. -/
theorem operations_preserve_driver_state {ε δ : Type}
    (d : IS31FL3731 ε δ) (m : Minimal ε) (enable : Bool) (f : Nat)
    (s : BusState) :
    (d.reset s).2.1 = d ∧
    (d.audio_sync enable s).2.1 = d ∧
    (d.clear f s).2.1 = d ∧
    (m.reset s).2.1 = m :=
  ⟨reset_drv d s, audio_sync_drv d enable s, clear_drv d f s,
    minimal_reset_drv m s⟩

/-- C3: if the bus fails a write (the first k writes succeed and the
k-th fails with e), then each operation returns the error e
unchanged and issues no bus write beyond the failing one: its
bus-write trace is exactly the first k successful writes of the
full sequence plus the failing write. -/
theorem error_propagation_aborts {ε δ : Type} (i2c : Nat → Option ε)
    (del : δ) (fr bank reg data f : Nat) (a : Address) (enable : Bool)
    (k : Nat) (e : ε)
    (hlt : ∀ j, j < k → i2c j = none) (hk : i2c k = some e) :
    (k < 6 →
      ((IS31FL3731.mk i2c del fr a).reset BusState.init).1 = Except.error e ∧
      writesOf ((IS31FL3731.mk i2c del fr a).reset BusState.init).2.2.trace =
        (writesOf (resetEvents a.toNat)).take (k + 1)) ∧
    (k < 2 →
      ((IS31FL3731.mk i2c del fr a).audio_sync enable BusState.init).1 =
        Except.error e ∧
      writesOf ((IS31FL3731.mk i2c del fr a).audio_sync enable
          BusState.init).2.2.trace =
        (writesOf (audioSyncEvents a.toNat enable)).take (k + 1)) ∧
    (k < 7 →
      ((IS31FL3731.mk i2c del fr a).clear f BusState.init).1 = Except.error e ∧
      writesOf ((IS31FL3731.mk i2c del fr a).clear f BusState.init).2.2.trace =
        (writesOf (clearEvents a.toNat f)).take (k + 1)) ∧
    (k < 2 →
      ((IS31FL3731.mk i2c del fr a).write_register bank reg data
          BusState.init).1 = Except.error e ∧
      writesOf ((IS31FL3731.mk i2c del fr a).write_register bank reg data
          BusState.init).2.2.trace =
        (writesOf (writeRegisterEvents a.toNat bank reg data)).take (k + 1)) := by
  refine ⟨?_, ?_, ?_, ?_⟩
  · intro hkb
    interval_cases k <;>
      simp [IS31FL3731.reset, IS31FL3731.write_register, IS31FL3731.select_bank,
        i2cWrite, delayMsCall, BusState.init, hlt, hk, writesOf,
        Event.isBusWrite, resetEvents, ISSI_COMMAND_REGISTER,
        ISSI_BANK_FUNCTION_REGISTER, ISSI_REG_SHUTDOWN, ISSI_REG_CONFIG,
        ISSI_REG_CONFIG_PICTURE_MODE]
  · intro hkb
    interval_cases k <;>
      simp [IS31FL3731.audio_sync, IS31FL3731.write_register,
        IS31FL3731.select_bank, i2cWrite, BusState.init, hlt, hk, writesOf,
        Event.isBusWrite, audioSyncEvents, ISSI_COMMAND_REGISTER,
        ISSI_BANK_FUNCTION_REGISTER, ISSI_REG_AUDIOSYNC]
  · intro hkb
    interval_cases k <;>
      simp [IS31FL3731.clear, IS31FL3731.clearPages, IS31FL3731.select_bank,
        i2cWrite, BusState.init, hlt, hk, writesOf, Event.isBusWrite,
        clearEvents, ISSI_COMMAND_REGISTER]
  · intro hkb
    interval_cases k <;>
      simp [IS31FL3731.write_register, IS31FL3731.select_bank, i2cWrite,
        BusState.init, hlt, hk, writesOf, Event.isBusWrite,
        writeRegisterEvents, ISSI_COMMAND_REGISTER]

/-- Witness for C3 at a concrete bus that acknowledges write 0 and
fails write 1 with error 42. -/
theorem error_propagation_aborts_witness :
    (fun j => if j = 0 then none else some 42 : Nat → Option Nat) 1 = some 42 ∧
    (((IS31FL3731.mk (fun j => if j = 0 then none else some 42) () 0
        Address.GND).reset BusState.init).1 = Except.error 42 ∧
      writesOf ((IS31FL3731.mk (fun j => if j = 0 then none else some 42) () 0
        Address.GND).reset BusState.init).2.2.trace =
        (writesOf (resetEvents Address.GND.toNat)).take 2) ∧
    (((IS31FL3731.mk (fun j => if j = 0 then none else some 42) () 0
        Address.GND).audio_sync true BusState.init).1 = Except.error 42 ∧
      writesOf ((IS31FL3731.mk (fun j => if j = 0 then none else some 42) () 0
        Address.GND).audio_sync true BusState.init).2.2.trace =
        (writesOf (audioSyncEvents Address.GND.toNat true)).take 2) ∧
    (((IS31FL3731.mk (fun j => if j = 0 then none else some 42) () 0
        Address.GND).clear 3 BusState.init).1 = Except.error 42 ∧
      writesOf ((IS31FL3731.mk (fun j => if j = 0 then none else some 42) () 0
        Address.GND).clear 3 BusState.init).2.2.trace =
        (writesOf (clearEvents Address.GND.toNat 3)).take 2) ∧
    (((IS31FL3731.mk (fun j => if j = 0 then none else some 42) () 0
        Address.GND).write_register 5 6 7 BusState.init).1 = Except.error 42 ∧
      writesOf ((IS31FL3731.mk (fun j => if j = 0 then none else some 42) () 0
        Address.GND).write_register 5 6 7 BusState.init).2.2.trace =
        (writesOf (writeRegisterEvents Address.GND.toNat 5 6 7)).take 2) :=
  ⟨rfl,
    (error_propagation_aborts _ () 0 5 6 7 3 Address.GND true 1 42
      (by intro j hj; interval_cases j; rfl) rfl).1 (by norm_num),
    (error_propagation_aborts _ () 0 5 6 7 3 Address.GND true 1 42
      (by intro j hj; interval_cases j; rfl) rfl).2.1 (by norm_num),
    (error_propagation_aborts _ () 0 5 6 7 3 Address.GND true 1 42
      (by intro j hj; interval_cases j; rfl) rfl).2.2.1 (by norm_num),
    (error_propagation_aborts _ () 0 5 6 7 3 Address.GND true 1 42
      (by intro j hj; interval_cases j; rfl) rfl).2.2.2 (by norm_num)⟩

section FrameIrrelevance

variable {ε δ δ' : Type}

/-- select_bank issues the same traffic and result for two drivers
that share the bus and address but differ in frame and delay. -/
lemma select_bank_congr (i2c : Nat → Option ε) (del : δ) (del' : δ')
    (f1 f2 : Nat) (a : Address) (bank : Nat) (s : BusState) :
    ((IS31FL3731.mk i2c del f1 a).select_bank bank s).1 =
      ((IS31FL3731.mk i2c del' f2 a).select_bank bank s).1 ∧
    ((IS31FL3731.mk i2c del f1 a).select_bank bank s).2.2 =
      ((IS31FL3731.mk i2c del' f2 a).select_bank bank s).2.2 := by
  cases hc : i2c s.calls <;>
    simp [IS31FL3731.select_bank, i2cWrite, hc]

/-- write_register issues the same traffic and result for two
drivers that share the bus and address but differ in frame and
delay. -/
lemma write_register_congr (i2c : Nat → Option ε) (del : δ) (del' : δ')
    (f1 f2 : Nat) (a : Address) (bank reg data : Nat) (s : BusState) :
    ((IS31FL3731.mk i2c del f1 a).write_register bank reg data s).1 =
      ((IS31FL3731.mk i2c del' f2 a).write_register bank reg data s).1 ∧
    ((IS31FL3731.mk i2c del f1 a).write_register bank reg data s).2.2 =
      ((IS31FL3731.mk i2c del' f2 a).write_register bank reg data s).2.2 := by
  obtain ⟨hr, hs⟩ := select_bank_congr i2c del del' f1 f2 a bank s
  rcases e1 : (IS31FL3731.mk i2c del f1 a).select_bank bank s with ⟨r1, d1, s1⟩
  rcases e2 : (IS31FL3731.mk i2c del' f2 a).select_bank bank s with ⟨r2, d2, s2⟩
  rw [e1, e2] at hr hs
  have hr' : r1 = r2 := hr
  have hs' : s1 = s2 := hs
  have hd1 : d1 = IS31FL3731.mk i2c del f1 a := by
    have h := select_bank_drv (IS31FL3731.mk i2c del f1 a) bank s
    rw [e1] at h
    exact h
  have hd2 : d2 = IS31FL3731.mk i2c del' f2 a := by
    have h := select_bank_drv (IS31FL3731.mk i2c del' f2 a) bank s
    rw [e2] at h
    exact h
  subst hr'
  subst hs'
  rcases r1 with e | u
  · simp [IS31FL3731.write_register, e1, e2]
  · cases hc : i2c s1.calls <;>
      simp [IS31FL3731.write_register, e1, e2, hd1, hd2, i2cWrite, hc]

/-- reset issues the same traffic and result for two drivers that
share the bus and address but differ in frame and delay. -/
lemma reset_congr (i2c : Nat → Option ε) (del : δ) (del' : δ')
    (f1 f2 : Nat) (a : Address) (s : BusState) :
    ((IS31FL3731.mk i2c del f1 a).reset s).1 =
      ((IS31FL3731.mk i2c del' f2 a).reset s).1 ∧
    ((IS31FL3731.mk i2c del f1 a).reset s).2.2 =
      ((IS31FL3731.mk i2c del' f2 a).reset s).2.2 := by
  obtain ⟨hr, hs⟩ := write_register_congr i2c del del' f1 f2 a
    ISSI_BANK_FUNCTION_REGISTER ISSI_REG_SHUTDOWN 0x00 s
  rcases e1 : (IS31FL3731.mk i2c del f1 a).write_register
      ISSI_BANK_FUNCTION_REGISTER ISSI_REG_SHUTDOWN 0x00 s with ⟨r1, d1, s1⟩
  rcases e2 : (IS31FL3731.mk i2c del' f2 a).write_register
      ISSI_BANK_FUNCTION_REGISTER ISSI_REG_SHUTDOWN 0x00 s with ⟨r2, d2, s2⟩
  rw [e1, e2] at hr hs
  have hr' : r1 = r2 := hr
  have hs' : s1 = s2 := hs
  have hd1 : d1 = IS31FL3731.mk i2c del f1 a := by
    have h := write_register_drv (IS31FL3731.mk i2c del f1 a)
      ISSI_BANK_FUNCTION_REGISTER ISSI_REG_SHUTDOWN 0x00 s
    rw [e1] at h
    exact h
  have hd2 : d2 = IS31FL3731.mk i2c del' f2 a := by
    have h := write_register_drv (IS31FL3731.mk i2c del' f2 a)
      ISSI_BANK_FUNCTION_REGISTER ISSI_REG_SHUTDOWN 0x00 s
    rw [e2] at h
    exact h
  subst hr'
  subst hs'
  rcases r1 with e | u
  · simp [IS31FL3731.reset, e1, e2]
  · obtain ⟨hr2, hs2⟩ := write_register_congr i2c del del' f1 f2 a
      ISSI_BANK_FUNCTION_REGISTER ISSI_REG_SHUTDOWN 0x01 (delayMsCall 10 s1)
    rcases e3 : (IS31FL3731.mk i2c del f1 a).write_register
        ISSI_BANK_FUNCTION_REGISTER ISSI_REG_SHUTDOWN 0x01 (delayMsCall 10 s1)
      with ⟨r3, d3, s3⟩
    rcases e4 : (IS31FL3731.mk i2c del' f2 a).write_register
        ISSI_BANK_FUNCTION_REGISTER ISSI_REG_SHUTDOWN 0x01 (delayMsCall 10 s1)
      with ⟨r4, d4, s4⟩
    rw [e3, e4] at hr2 hs2
    have hr2' : r3 = r4 := hr2
    have hs2' : s3 = s4 := hs2
    have hd3 : d3 = IS31FL3731.mk i2c del f1 a := by
      have h := write_register_drv (IS31FL3731.mk i2c del f1 a)
        ISSI_BANK_FUNCTION_REGISTER ISSI_REG_SHUTDOWN 0x01 (delayMsCall 10 s1)
      rw [e3] at h
      exact h
    have hd4 : d4 = IS31FL3731.mk i2c del' f2 a := by
      have h := write_register_drv (IS31FL3731.mk i2c del' f2 a)
        ISSI_BANK_FUNCTION_REGISTER ISSI_REG_SHUTDOWN 0x01 (delayMsCall 10 s1)
      rw [e4] at h
      exact h
    subst hr2'
    subst hs2'
    rcases r3 with e | u
    · simp [IS31FL3731.reset, e1, e2, e3, e4, hd1, hd2]
    · obtain ⟨hr3, hs3⟩ := write_register_congr i2c del del' f1 f2 a
        ISSI_BANK_FUNCTION_REGISTER ISSI_REG_CONFIG ISSI_REG_CONFIG_PICTURE_MODE s3
      rcases e5 : (IS31FL3731.mk i2c del f1 a).write_register
          ISSI_BANK_FUNCTION_REGISTER ISSI_REG_CONFIG
          ISSI_REG_CONFIG_PICTURE_MODE s3 with ⟨r5, d5, s5⟩
      rcases e6 : (IS31FL3731.mk i2c del' f2 a).write_register
          ISSI_BANK_FUNCTION_REGISTER ISSI_REG_CONFIG
          ISSI_REG_CONFIG_PICTURE_MODE s3 with ⟨r6, d6, s6⟩
      rw [e5, e6] at hr3 hs3
      have hr3' : r5 = r6 := hr3
      have hs3' : s5 = s6 := hs3
      subst hr3'
      subst hs3'
      rcases r5 with e | u <;>
        simp [IS31FL3731.reset, e1, e2, e3, e4, e5, e6, hd1, hd2, hd3, hd4]

/-- audio_sync issues the same traffic and result for two drivers
that share the bus and address but differ in frame and delay. -/
lemma audio_sync_congr (i2c : Nat → Option ε) (del : δ) (del' : δ')
    (f1 f2 : Nat) (a : Address) (enable : Bool) (s : BusState) :
    ((IS31FL3731.mk i2c del f1 a).audio_sync enable s).1 =
      ((IS31FL3731.mk i2c del' f2 a).audio_sync enable s).1 ∧
    ((IS31FL3731.mk i2c del f1 a).audio_sync enable s).2.2 =
      ((IS31FL3731.mk i2c del' f2 a).audio_sync enable s).2.2 := by
  obtain ⟨hr, hs⟩ := write_register_congr i2c del del' f1 f2 a
    ISSI_BANK_FUNCTION_REGISTER ISSI_REG_AUDIOSYNC (if enable then 1 else 0) s
  rcases e1 : (IS31FL3731.mk i2c del f1 a).write_register
      ISSI_BANK_FUNCTION_REGISTER ISSI_REG_AUDIOSYNC (if enable then 1 else 0) s
    with ⟨r1, d1, s1⟩
  rcases e2 : (IS31FL3731.mk i2c del' f2 a).write_register
      ISSI_BANK_FUNCTION_REGISTER ISSI_REG_AUDIOSYNC (if enable then 1 else 0) s
    with ⟨r2, d2, s2⟩
  rw [e1, e2] at hr hs
  have hr' : r1 = r2 := hr
  have hs' : s1 = s2 := hs
  subst hr'
  subst hs'
  rcases r1 with e | u <;> simp [IS31FL3731.audio_sync, e1, e2]

/-- The clear page loop behaves identically for two drivers that
share the bus and address but differ in frame and delay. -/
lemma clearPages_congr (i2c : Nat → Option ε) (del : δ) (del' : δ')
    (f1 f2 : Nat) (a : Address) :
    ∀ (xs : List Nat) (s : BusState),
      (IS31FL3731.mk i2c del f1 a).clearPages xs s =
        (IS31FL3731.mk i2c del' f2 a).clearPages xs s := by
  intro xs
  induction xs with
  | nil => intro s; rfl
  | cons x xs ih =>
    intro s
    cases hc : i2c s.calls <;>
      simp [IS31FL3731.clearPages, i2cWrite, hc, ih]

/-- clear issues the same traffic and result for two drivers that
share the bus and address but differ in frame and delay. -/
lemma clear_congr (i2c : Nat → Option ε) (del : δ) (del' : δ')
    (f1 f2 : Nat) (a : Address) (f : Nat) (s : BusState) :
    ((IS31FL3731.mk i2c del f1 a).clear f s).1 =
      ((IS31FL3731.mk i2c del' f2 a).clear f s).1 ∧
    ((IS31FL3731.mk i2c del f1 a).clear f s).2.2 =
      ((IS31FL3731.mk i2c del' f2 a).clear f s).2.2 := by
  obtain ⟨hr, hs⟩ := select_bank_congr i2c del del' f1 f2 a f s
  rcases e1 : (IS31FL3731.mk i2c del f1 a).select_bank f s with ⟨r1, d1, s1⟩
  rcases e2 : (IS31FL3731.mk i2c del' f2 a).select_bank f s with ⟨r2, d2, s2⟩
  rw [e1, e2] at hr hs
  have hr' : r1 = r2 := hr
  have hs' : s1 = s2 := hs
  have hd1 : d1 = IS31FL3731.mk i2c del f1 a := by
    have h := select_bank_drv (IS31FL3731.mk i2c del f1 a) f s
    rw [e1] at h
    exact h
  have hd2 : d2 = IS31FL3731.mk i2c del' f2 a := by
    have h := select_bank_drv (IS31FL3731.mk i2c del' f2 a) f s
    rw [e2] at h
    exact h
  subst hr'
  subst hs'
  rcases r1 with e | u
  · simp [IS31FL3731.clear, e1, e2]
  · have hcp := clearPages_congr i2c del del' f1 f2 a [0, 1, 2, 3, 4, 5] s1
    rcases e3 : (IS31FL3731.mk i2c del f1 a).clearPages [0, 1, 2, 3, 4, 5] s1
      with ⟨r3, s3⟩
    have e4 : (IS31FL3731.mk i2c del' f2 a).clearPages [0, 1, 2, 3, 4, 5] s1 =
        (r3, s3) := by
      rw [← hcp, e3]
    rcases r3 with e | u <;>
      simp [IS31FL3731.clear, e1, e2, e3, e4, hd1, hd2]

/-- The minimal-variant select_bank issues the same traffic and
result for two drivers sharing bus and address. -/
lemma minimal_select_bank_congr (i2c : Nat → Option ε)
    (f1 f2 : Nat) (a : Address) (bank : Nat) (s : BusState) :
    ((Minimal.mk i2c f1 a).select_bank bank s).1 =
      ((Minimal.mk i2c f2 a).select_bank bank s).1 ∧
    ((Minimal.mk i2c f1 a).select_bank bank s).2.2 =
      ((Minimal.mk i2c f2 a).select_bank bank s).2.2 := by
  cases hc : i2c s.calls <;>
    simp [Minimal.select_bank, i2cWrite, hc]

/-- The minimal-variant write_register issues the same traffic and
result for two drivers sharing bus and address. -/
lemma minimal_write_register_congr (i2c : Nat → Option ε)
    (f1 f2 : Nat) (a : Address) (bank reg data : Nat) (s : BusState) :
    ((Minimal.mk i2c f1 a).write_register bank reg data s).1 =
      ((Minimal.mk i2c f2 a).write_register bank reg data s).1 ∧
    ((Minimal.mk i2c f1 a).write_register bank reg data s).2.2 =
      ((Minimal.mk i2c f2 a).write_register bank reg data s).2.2 := by
  obtain ⟨hr, hs⟩ := minimal_select_bank_congr i2c f1 f2 a bank s
  rcases e1 : (Minimal.mk i2c f1 a).select_bank bank s with ⟨r1, d1, s1⟩
  rcases e2 : (Minimal.mk i2c f2 a).select_bank bank s with ⟨r2, d2, s2⟩
  rw [e1, e2] at hr hs
  have hr' : r1 = r2 := hr
  have hs' : s1 = s2 := hs
  have hd1 : d1 = Minimal.mk i2c f1 a := by
    have h := minimal_select_bank_drv (Minimal.mk i2c f1 a) bank s
    rw [e1] at h
    exact h
  have hd2 : d2 = Minimal.mk i2c f2 a := by
    have h := minimal_select_bank_drv (Minimal.mk i2c f2 a) bank s
    rw [e2] at h
    exact h
  subst hr'
  subst hs'
  rcases r1 with e | u
  · simp [Minimal.write_register, e1, e2]
  · cases hc : i2c s1.calls <;>
      simp [Minimal.write_register, e1, e2, hd1, hd2, i2cWrite, hc]

/-- The minimal-variant reset issues the same traffic and result
for two drivers sharing bus and address. -/
lemma minimal_reset_congr (i2c : Nat → Option ε)
    (f1 f2 : Nat) (a : Address) (s : BusState) :
    ((Minimal.mk i2c f1 a).reset s).1 = ((Minimal.mk i2c f2 a).reset s).1 ∧
    ((Minimal.mk i2c f1 a).reset s).2.2 =
      ((Minimal.mk i2c f2 a).reset s).2.2 := by
  obtain ⟨hr, hs⟩ := minimal_write_register_congr i2c f1 f2 a
    ISSI_BANK_FUNCTION_REGISTER ISSI_REG_SHUTDOWN 0x00 s
  rcases e1 : (Minimal.mk i2c f1 a).write_register
      ISSI_BANK_FUNCTION_REGISTER ISSI_REG_SHUTDOWN 0x00 s with ⟨r1, d1, s1⟩
  rcases e2 : (Minimal.mk i2c f2 a).write_register
      ISSI_BANK_FUNCTION_REGISTER ISSI_REG_SHUTDOWN 0x00 s with ⟨r2, d2, s2⟩
  rw [e1, e2] at hr hs
  have hr' : r1 = r2 := hr
  have hs' : s1 = s2 := hs
  subst hr'
  subst hs'
  rcases r1 with e | u <;> simp [Minimal.reset, e1, e2]

end FrameIrrelevance

/-- C10: two driver states holding the same bus and device address
but arbitrary frame fields (and delay handles) produce, for every
operation and every argument and from every starting bus state,
identical results and identical bus traffic: the issued writes
depend only on the arguments and the stored address, never on the
frame field. -/
theorem traffic_independent_of_frame {ε δ δ' : Type}
    (i2c : Nat → Option ε) (del : δ) (del' : δ') (f1 f2 : Nat)
    (a : Address) (bank reg data f : Nat) (enable : Bool) (s : BusState) :
    (((IS31FL3731.mk i2c del f1 a).reset s).1 =
        ((IS31FL3731.mk i2c del' f2 a).reset s).1 ∧
      ((IS31FL3731.mk i2c del f1 a).reset s).2.2 =
        ((IS31FL3731.mk i2c del' f2 a).reset s).2.2) ∧
    (((IS31FL3731.mk i2c del f1 a).audio_sync enable s).1 =
        ((IS31FL3731.mk i2c del' f2 a).audio_sync enable s).1 ∧
      ((IS31FL3731.mk i2c del f1 a).audio_sync enable s).2.2 =
        ((IS31FL3731.mk i2c del' f2 a).audio_sync enable s).2.2) ∧
    (((IS31FL3731.mk i2c del f1 a).clear f s).1 =
        ((IS31FL3731.mk i2c del' f2 a).clear f s).1 ∧
      ((IS31FL3731.mk i2c del f1 a).clear f s).2.2 =
        ((IS31FL3731.mk i2c del' f2 a).clear f s).2.2) ∧
    (((IS31FL3731.mk i2c del f1 a).select_bank bank s).1 =
        ((IS31FL3731.mk i2c del' f2 a).select_bank bank s).1 ∧
      ((IS31FL3731.mk i2c del f1 a).select_bank bank s).2.2 =
        ((IS31FL3731.mk i2c del' f2 a).select_bank bank s).2.2) ∧
    (((IS31FL3731.mk i2c del f1 a).write_register bank reg data s).1 =
        ((IS31FL3731.mk i2c del' f2 a).write_register bank reg data s).1 ∧
      ((IS31FL3731.mk i2c del f1 a).write_register bank reg data s).2.2 =
        ((IS31FL3731.mk i2c del' f2 a).write_register bank reg data s).2.2) ∧
    (((Minimal.mk i2c f1 a).reset s).1 = ((Minimal.mk i2c f2 a).reset s).1 ∧
      ((Minimal.mk i2c f1 a).reset s).2.2 =
        ((Minimal.mk i2c f2 a).reset s).2.2) ∧
    (((Minimal.mk i2c f1 a).select_bank bank s).1 =
        ((Minimal.mk i2c f2 a).select_bank bank s).1 ∧
      ((Minimal.mk i2c f1 a).select_bank bank s).2.2 =
        ((Minimal.mk i2c f2 a).select_bank bank s).2.2) ∧
    (((Minimal.mk i2c f1 a).write_register bank reg data s).1 =
        ((Minimal.mk i2c f2 a).write_register bank reg data s).1 ∧
      ((Minimal.mk i2c f1 a).write_register bank reg data s).2.2 =
        ((Minimal.mk i2c f2 a).write_register bank reg data s).2.2) :=
  ⟨reset_congr i2c del del' f1 f2 a s,
    audio_sync_congr i2c del del' f1 f2 a enable s,
    clear_congr i2c del del' f1 f2 a f s,
    select_bank_congr i2c del del' f1 f2 a bank s,
    write_register_congr i2c del del' f1 f2 a bank reg data s,
    minimal_reset_congr i2c f1 f2 a s,
    minimal_select_bank_congr i2c f1 f2 a bank s,
    minimal_write_register_congr i2c f1 f2 a bank reg data s⟩

/-- C9: when clear(f) is invoked twice in a row and both calls
succeed, the second call emits exactly the same event sequence as
the first (the final trace is the first-call trace followed by an
identical copy), and likewise for two successful audio_sync calls
with the same argument. -/
theorem clear_audio_sync_idempotent {ε δ : Type}
    (i2c j2c : Nat → Option ε) (del : δ) (fr f : Nat) (a : Address)
    (enable : Bool)
    (hc1 : ((IS31FL3731.mk i2c del fr a).clear f BusState.init).1 =
      Except.ok ())
    (hc2 : ((((IS31FL3731.mk i2c del fr a).clear f BusState.init).2.1).clear f
        (((IS31FL3731.mk i2c del fr a).clear f BusState.init).2.2)).1 =
      Except.ok ())
    (ha1 : ((IS31FL3731.mk j2c del fr a).audio_sync enable BusState.init).1 =
      Except.ok ())
    (ha2 : ((((IS31FL3731.mk j2c del fr a).audio_sync enable
          BusState.init).2.1).audio_sync enable
        (((IS31FL3731.mk j2c del fr a).audio_sync enable
          BusState.init).2.2)).1 = Except.ok ()) :
    ((((IS31FL3731.mk i2c del fr a).clear f BusState.init).2.1).clear f
        (((IS31FL3731.mk i2c del fr a).clear f BusState.init).2.2)).2.2.trace =
      ((IS31FL3731.mk i2c del fr a).clear f BusState.init).2.2.trace ++
        ((IS31FL3731.mk i2c del fr a).clear f BusState.init).2.2.trace ∧
    ((((IS31FL3731.mk j2c del fr a).audio_sync enable
          BusState.init).2.1).audio_sync enable
        (((IS31FL3731.mk j2c del fr a).audio_sync enable
          BusState.init).2.2)).2.2.trace =
      ((IS31FL3731.mk j2c del fr a).audio_sync enable BusState.init).2.2.trace ++
        ((IS31FL3731.mk j2c del fr a).audio_sync enable
          BusState.init).2.2.trace := by
  have hdc : ((IS31FL3731.mk i2c del fr a).clear f BusState.init).2.1 =
      IS31FL3731.mk i2c del fr a :=
    clear_drv (IS31FL3731.mk i2c del fr a) f BusState.init
  have hda : ((IS31FL3731.mk j2c del fr a).audio_sync enable
        BusState.init).2.1 = IS31FL3731.mk j2c del fr a :=
    audio_sync_drv (IS31FL3731.mk j2c del fr a) enable BusState.init
  rw [hdc] at hc2 ⊢
  rw [hda] at ha2 ⊢
  have h0 : i2c 0 = none := by
    cases hc : i2c 0 with
    | none => rfl
    | some e =>
      simp [IS31FL3731.clear, IS31FL3731.clearPages, IS31FL3731.select_bank,
        i2cWrite, BusState.init, hc] at hc1
  have h1 : i2c 1 = none := by
    cases hc : i2c 1 with
    | none => rfl
    | some e =>
      simp [IS31FL3731.clear, IS31FL3731.clearPages, IS31FL3731.select_bank,
        i2cWrite, BusState.init, h0, hc] at hc1
  have h2 : i2c 2 = none := by
    cases hc : i2c 2 with
    | none => rfl
    | some e =>
      simp [IS31FL3731.clear, IS31FL3731.clearPages, IS31FL3731.select_bank,
        i2cWrite, BusState.init, h0, h1, hc] at hc1
  have h3 : i2c 3 = none := by
    cases hc : i2c 3 with
    | none => rfl
    | some e =>
      simp [IS31FL3731.clear, IS31FL3731.clearPages, IS31FL3731.select_bank,
        i2cWrite, BusState.init, h0, h1, h2, hc] at hc1
  have h4 : i2c 4 = none := by
    cases hc : i2c 4 with
    | none => rfl
    | some e =>
      simp [IS31FL3731.clear, IS31FL3731.clearPages, IS31FL3731.select_bank,
        i2cWrite, BusState.init, h0, h1, h2, h3, hc] at hc1
  have h5 : i2c 5 = none := by
    cases hc : i2c 5 with
    | none => rfl
    | some e =>
      simp [IS31FL3731.clear, IS31FL3731.clearPages, IS31FL3731.select_bank,
        i2cWrite, BusState.init, h0, h1, h2, h3, h4, hc] at hc1
  have h6 : i2c 6 = none := by
    cases hc : i2c 6 with
    | none => rfl
    | some e =>
      simp [IS31FL3731.clear, IS31FL3731.clearPages, IS31FL3731.select_bank,
        i2cWrite, BusState.init, h0, h1, h2, h3, h4, h5, hc] at hc1
  have E1 : (IS31FL3731.mk i2c del fr a).clear f BusState.init =
      (Except.ok (), IS31FL3731.mk i2c del fr a,
        ⟨7, clearEvents a.toNat f⟩) := by
    simp [IS31FL3731.clear, IS31FL3731.clearPages, IS31FL3731.select_bank,
      i2cWrite, BusState.init, h0, h1, h2, h3, h4, h5, h6, clearEvents,
      ISSI_COMMAND_REGISTER]
  rw [E1] at hc2 ⊢
  have h7 : i2c 7 = none := by
    cases hc : i2c 7 with
    | none => rfl
    | some e =>
      simp [IS31FL3731.clear, IS31FL3731.clearPages, IS31FL3731.select_bank,
        i2cWrite, hc] at hc2
  have h8 : i2c 8 = none := by
    cases hc : i2c 8 with
    | none => rfl
    | some e =>
      simp [IS31FL3731.clear, IS31FL3731.clearPages, IS31FL3731.select_bank,
        i2cWrite, h7, hc] at hc2
  have h9 : i2c 9 = none := by
    cases hc : i2c 9 with
    | none => rfl
    | some e =>
      simp [IS31FL3731.clear, IS31FL3731.clearPages, IS31FL3731.select_bank,
        i2cWrite, h7, h8, hc] at hc2
  have h10 : i2c 10 = none := by
    cases hc : i2c 10 with
    | none => rfl
    | some e =>
      simp [IS31FL3731.clear, IS31FL3731.clearPages, IS31FL3731.select_bank,
        i2cWrite, h7, h8, h9, hc] at hc2
  have h11 : i2c 11 = none := by
    cases hc : i2c 11 with
    | none => rfl
    | some e =>
      simp [IS31FL3731.clear, IS31FL3731.clearPages, IS31FL3731.select_bank,
        i2cWrite, h7, h8, h9, h10, hc] at hc2
  have h12 : i2c 12 = none := by
    cases hc : i2c 12 with
    | none => rfl
    | some e =>
      simp [IS31FL3731.clear, IS31FL3731.clearPages, IS31FL3731.select_bank,
        i2cWrite, h7, h8, h9, h10, h11, hc] at hc2
  have h13 : i2c 13 = none := by
    cases hc : i2c 13 with
    | none => rfl
    | some e =>
      simp [IS31FL3731.clear, IS31FL3731.clearPages, IS31FL3731.select_bank,
        i2cWrite, h7, h8, h9, h10, h11, h12, hc] at hc2
  have k0 : j2c 0 = none := by
    cases hc : j2c 0 with
    | none => rfl
    | some e =>
      simp [IS31FL3731.audio_sync, IS31FL3731.write_register,
        IS31FL3731.select_bank, i2cWrite, BusState.init, hc] at ha1
  have k1 : j2c 1 = none := by
    cases hc : j2c 1 with
    | none => rfl
    | some e =>
      simp [IS31FL3731.audio_sync, IS31FL3731.write_register,
        IS31FL3731.select_bank, i2cWrite, BusState.init, k0, hc] at ha1
  have E2 : (IS31FL3731.mk j2c del fr a).audio_sync enable BusState.init =
      (Except.ok (), IS31FL3731.mk j2c del fr a,
        ⟨2, audioSyncEvents a.toNat enable⟩) := by
    simp [IS31FL3731.audio_sync, IS31FL3731.write_register,
      IS31FL3731.select_bank, i2cWrite, BusState.init, k0, k1,
      audioSyncEvents, ISSI_COMMAND_REGISTER, ISSI_BANK_FUNCTION_REGISTER,
      ISSI_REG_AUDIOSYNC]
  rw [E2] at ha2 ⊢
  have k2 : j2c 2 = none := by
    cases hc : j2c 2 with
    | none => rfl
    | some e =>
      simp [IS31FL3731.audio_sync, IS31FL3731.write_register,
        IS31FL3731.select_bank, i2cWrite, hc] at ha2
  have k3 : j2c 3 = none := by
    cases hc : j2c 3 with
    | none => rfl
    | some e =>
      simp [IS31FL3731.audio_sync, IS31FL3731.write_register,
        IS31FL3731.select_bank, i2cWrite, k2, hc] at ha2
  constructor
  · simp [IS31FL3731.clear, IS31FL3731.clearPages, IS31FL3731.select_bank,
      i2cWrite, h7, h8, h9, h10, h11, h12, h13, clearEvents,
      ISSI_COMMAND_REGISTER]
  · simp [IS31FL3731.audio_sync, IS31FL3731.write_register,
      IS31FL3731.select_bank, i2cWrite, k2, k3, audioSyncEvents,
      ISSI_COMMAND_REGISTER, ISSI_BANK_FUNCTION_REGISTER, ISSI_REG_AUDIOSYNC]

/-- Witness for C9 at a concrete always-acknowledging bus with
frame 3 and enable true. -/
theorem clear_audio_sync_idempotent_witness :
    ((((IS31FL3731.mk (fun _ => (none : Option Nat)) () 0 Address.GND).clear 3
          BusState.init).2.1).clear 3
        (((IS31FL3731.mk (fun _ => (none : Option Nat)) () 0 Address.GND).clear
          3 BusState.init).2.2)).2.2.trace =
      ((IS31FL3731.mk (fun _ => (none : Option Nat)) () 0 Address.GND).clear 3
          BusState.init).2.2.trace ++
        ((IS31FL3731.mk (fun _ => (none : Option Nat)) () 0 Address.GND).clear 3
          BusState.init).2.2.trace ∧
    ((((IS31FL3731.mk (fun _ => (none : Option Nat)) () 0
            Address.GND).audio_sync true BusState.init).2.1).audio_sync true
        (((IS31FL3731.mk (fun _ => (none : Option Nat)) () 0
            Address.GND).audio_sync true BusState.init).2.2)).2.2.trace =
      ((IS31FL3731.mk (fun _ => (none : Option Nat)) () 0 Address.GND).audio_sync
          true BusState.init).2.2.trace ++
        ((IS31FL3731.mk (fun _ => (none : Option Nat)) () 0 Address.GND).audio_sync
          true BusState.init).2.2.trace :=
  clear_audio_sync_idempotent (fun _ => (none : Option Nat))
    (fun _ => (none : Option Nat)) () 0 3 Address.GND true rfl rfl rfl rfl

end IS31
